import Mathlib

/-!
# Verification of the head-controlled snake core

Shallow embedding of the core modules of the repository
(`gesture_recognition.py`, `control_bridge.py`, `game_engine.py`) and
proofs of the specified properties.

Positions are modelled as integer pairs (pixel coordinates for gestures,
grid coordinates for the game).  Randomness in food spawning is modelled
by an explicit list of candidate draws (the rejection-sampling loop
returns the first draw not occupying a snake cell, and `none` when the
supplied draws are exhausted, which models non-termination of the loop).
The real-valued hand-shape predicates (`is_open_palm`, `is_closed_fist`)
use exact real arithmetic in place of floating point.
-/

/-- Cardinal directions, as the string constants of the source. -/
inductive Dir where
  | UP
  | DOWN
  | LEFT
  | RIGHT
deriving DecidableEq, Repr

/-- The `opposite_map` used in both `control_bridge.py` and
`game_engine.py`. -/
def opposite : Dir → Dir
  | Dir.UP => Dir.DOWN
  | Dir.DOWN => Dir.UP
  | Dir.LEFT => Dir.RIGHT
  | Dir.RIGHT => Dir.LEFT

/-- A pixel-space position sample. -/
abbrev Pos := Int × Int

/-- State of `GestureRecognition` (`gesture_recognition.py`, `__init__`). -/
structure GestureRecognition where
  movement_threshold : Int
  history_size : Nat
  position_history : List Pos
  neutral_position : Option Pos
  is_calibrated : Bool
  current_direction : Option Dir
  last_direction : Option Dir
  pause_cooldown : Nat
  boost_cooldown : Nat
deriving DecidableEq, Repr

namespace GestureRecognition

/-- A fresh recognizer with the default constructor arguments
(`movement_threshold=30`, `history_size=10`). -/
def init : GestureRecognition :=
  { movement_threshold := 30
    history_size := 10
    position_history := []
    neutral_position := none
    is_calibrated := false
    current_direction := none
    last_direction := none
    pause_cooldown := 0
    boost_cooldown := 0 }

/-- `deque(maxlen=n).append`: append on the right, evicting from the left
when the capacity is exceeded. -/
def dequeAppend (cap : Nat) (xs : List Pos) (x : Pos) : List Pos :=
  let ys := xs ++ [x]
  if cap < ys.length then ys.drop (ys.length - cap) else ys

/-- `GestureRecognition.update`: a `None` position returns immediately;
otherwise the position is appended to the history and each strictly
positive cooldown is decremented. -/
def update (g : GestureRecognition) (head_position : Option Pos) :
    GestureRecognition :=
  match head_position with
  | none => g
  | some p =>
    let g1 := { g with
      position_history := dequeAppend g.history_size g.position_history p }
    let g2 := if 0 < g1.pause_cooldown
      then { g1 with pause_cooldown := g1.pause_cooldown - 1 } else g1
    if 0 < g2.boost_cooldown
      then { g2 with boost_cooldown := g2.boost_cooldown - 1 } else g2

/-- `GestureRecognition.calibrate`. -/
def calibrate (g : GestureRecognition) (head_position : Option Pos) :
    GestureRecognition :=
  match head_position with
  | none => g
  | some p =>
    { g with
      neutral_position := some p
      is_calibrated := true
      position_history := [p] }

/-- The value returned by `GestureRecognition.get_direction`: compare the
newest history entry against the oldest, pick the dominant axis, apply
the dead-zone threshold, and map the sign to a direction. -/
def get_direction (g : GestureRecognition) : Option Dir :=
  if g.position_history.length < 3 then none
  else
    let recent := g.position_history.getLastD (0, 0)
    let older := g.position_history.headD (0, 0)
    let dx := recent.1 - older.1
    let dy := recent.2 - older.2
    if |dy| < |dx| then
      if |dx| < g.movement_threshold then none
      else if 0 < dx then some Dir.RIGHT else some Dir.LEFT
    else
      if |dy| < g.movement_threshold then none
      else if 0 < dy then some Dir.DOWN else some Dir.UP

/-- The x-displacement `get_direction` compares: newest history sample
minus oldest. -/
def histDx (g : GestureRecognition) : Int :=
  (g.position_history.getLastD (0, 0)).1 - (g.position_history.headD (0, 0)).1

/-- The y-displacement `get_direction` compares: newest history sample
minus oldest. -/
def histDy (g : GestureRecognition) : Int :=
  (g.position_history.getLastD (0, 0)).2 - (g.position_history.headD (0, 0)).2

/-- `GestureRecognition.get_direction` including its mutation of
`last_direction` / `current_direction` (performed only when a direction
is returned). -/
def get_direction_full (g : GestureRecognition) :
    Option Dir × GestureRecognition :=
  match g.get_direction with
  | none => (none, g)
  | some d =>
    (some d, { g with
      last_direction := g.current_direction
      current_direction := some d })

/-- `GestureRecognition.trigger_pause`: succeeds and arms a 30-tick
cooldown only when the cooldown is zero. -/
def trigger_pause (g : GestureRecognition) : Bool × GestureRecognition :=
  if g.pause_cooldown = 0 then (true, { g with pause_cooldown := 30 })
  else (false, g)

/-- `GestureRecognition.trigger_boost`: succeeds and arms a 10-tick
cooldown only when the cooldown is zero. -/
def trigger_boost (g : GestureRecognition) : Bool × GestureRecognition :=
  if g.boost_cooldown = 0 then (true, { g with boost_cooldown := 10 })
  else (false, g)

/-- `GestureRecognition.reset`: clears history, directions and
calibration; the cooldown counters are left untouched. -/
def reset (g : GestureRecognition) : GestureRecognition :=
  { g with
    position_history := []
    current_direction := none
    last_direction := none
    is_calibrated := false
    neutral_position := none }

end GestureRecognition

/-- State of `ControlBridge` (`control_bridge.py`, `__init__`). -/
structure ControlBridge where
  gesture_recognizer : GestureRecognition
  current_direction : Option Dir
  boost_active : Bool
  pause_triggered : Bool
  last_move_direction : Option Dir
deriving DecidableEq, Repr

namespace ControlBridge

/-- A fresh control bridge. -/
def init : ControlBridge :=
  { gesture_recognizer := GestureRecognition.init
    current_direction := none
    boost_active := false
    pause_triggered := false
    last_move_direction := none }

/-- `ControlBridge._update_direction`: accept any first direction, then
reject the exact opposite of the last committed direction; `None` and
rejected inputs leave the state unchanged. -/
def update_direction (b : ControlBridge) (direction : Option Dir) :
    ControlBridge :=
  match direction with
  | none => b
  | some d =>
    match b.last_move_direction with
    | none =>
      { b with current_direction := some d, last_move_direction := some d }
    | some last =>
      if d ≠ opposite last then
        { b with current_direction := some d, last_move_direction := some d }
      else b

/-- `ControlBridge._update_boost`: boost is active iff the palm is open
and `trigger_boost` succeeds this tick; Python's `and` short-circuits, so
the trigger (and its cooldown arming) runs only when the palm is open. -/
def update_boost (b : ControlBridge) (is_open_palm : Bool) : ControlBridge :=
  if is_open_palm then
    let (ok, g) := b.gesture_recognizer.trigger_boost
    { b with gesture_recognizer := g, boost_active := ok }
  else { b with boost_active := false }

/-- `ControlBridge._update_pause`: while the fist is closed a successful
`trigger_pause` sets the one-shot flag; an open fist clears it. -/
def update_pause (b : ControlBridge) (is_closed_fist : Bool) : ControlBridge :=
  if is_closed_fist then
    let (ok, g) := b.gesture_recognizer.trigger_pause
    if ok then
      { b with gesture_recognizer := g, pause_triggered := true }
    else { b with gesture_recognizer := g }
  else { b with pause_triggered := false }

/-- `ControlBridge.update`.  The two hand-shape predicates are computed
from the keypoint snapshot by real-valued geometry (`is_open_palm`,
`is_closed_fist` below); here their boolean outcomes for the tick are
taken as inputs, and the rest of the method is the composition from the
source: recognizer update, direction classification, then the three
policy updates. -/
def update (b : ControlBridge) (head_position : Option Pos)
    (open_palm closed_fist : Bool) : ControlBridge :=
  let g := b.gesture_recognizer.update head_position
  let (direction, g) := g.get_direction_full
  let b1 := { b with gesture_recognizer := g }
  let b2 := b1.update_direction direction
  let b3 := b2.update_boost open_palm
  b3.update_pause closed_fist

/-- `ControlBridge.get_pause_trigger`: read-and-clear. -/
def get_pause_trigger (b : ControlBridge) : Bool × ControlBridge :=
  if b.pause_triggered then (true, { b with pause_triggered := false })
  else (false, b)

/-- `ControlBridge.reset`. -/
def reset (b : ControlBridge) : ControlBridge :=
  { b with
    gesture_recognizer := b.gesture_recognizer.reset
    current_direction := none
    boost_active := false
    pause_triggered := false
    last_move_direction := none }

end ControlBridge

/-- One tick of the §8 pause scenario: a present position sample, a
closed fist (hence no open palm), followed by one `get_pause_trigger`
poll; returns the reading and the next state. -/
def pauseTick (b : ControlBridge) : Bool × ControlBridge :=
  let b1 := b.update (some (0, 0)) false true
  b1.get_pause_trigger

/-- Readings of `n` consecutive pause-scenario ticks. -/
def pauseRun : Nat → ControlBridge → List Bool
  | 0, _ => []
  | n + 1, b =>
    let (r, b1) := pauseTick b
    r :: pauseRun n b1

/-- One tick of the §8 boost scenario: a present position sample, an open
palm (hence no closed fist); the reading is `boost_active` after the
update. -/
def boostTick (b : ControlBridge) : Bool × ControlBridge :=
  let b1 := b.update (some (0, 0)) true false
  (b1.boost_active, b1)

/-- Readings of `n` consecutive boost-scenario ticks. -/
def boostRun : Nat → ControlBridge → List Bool
  | 0, _ => []
  | n + 1, b =>
    let (r, b1) := boostTick b
    r :: boostRun n b1

/-- A grid cell, as the `(x, y)` tuples of `game_engine.py`.  Integer
valued: with tiny grids the initial snake extends to negative
coordinates, exactly as in the source. -/
abbrev Cell := Int × Int

/-- State of `SnakeGame` (`game_engine.py`, `__init__` plus `reset`). -/
structure SnakeGame where
  grid_width : Nat
  grid_height : Nat
  cell_size : Nat
  snake : List Cell
  direction : Dir
  next_direction : Dir
  score : Nat
  game_over : Bool
  paused : Bool
  food : Cell
  base_speed : Nat
  boost_speed : Nat
  speed_counter : Nat
deriving DecidableEq, Repr

namespace SnakeGame

/-- `SnakeGame._spawn_food`, with the random stream made explicit: the
rejection-sampling loop returns the first candidate draw not occupying a
snake cell.  `random.randint` always yields an in-grid cell, so clients
model it by in-grid draw lists; exhausting the draws (`none`) models the
loop running forever without finding a free cell. -/
def spawn_food (draws : List Cell) (snake : List Cell) : Option Cell :=
  draws.find? (fun c => !(snake.contains c))

/-- The three-cell initial snake of `SnakeGame.reset`, head first,
centered on the grid. -/
def initialSnake (grid_width grid_height : Nat) : List Cell :=
  let center_x : Int := (grid_width : Int) / 2
  let center_y : Int := (grid_height : Int) / 2
  [(center_x, center_y), (center_x - 1, center_y), (center_x - 2, center_y)]

/-- `SnakeGame.reset` on an existing state: re-seed the snake, direction
RIGHT, score 0, clear the flags, spawn food by rejection sampling.  The
result is `none` exactly when the sampling loop cannot terminate on the
supplied draws. -/
def reset (s : SnakeGame) (draws : List Cell) : Option SnakeGame :=
  let snake := initialSnake s.grid_width s.grid_height
  (spawn_food draws snake).map (fun f =>
    { s with
      snake := snake
      direction := Dir.RIGHT
      next_direction := Dir.RIGHT
      score := 0
      game_over := false
      paused := false
      food := f })

/-- `SnakeGame.__init__(grid_width, grid_height, cell_size)`: stores the
dimensions and calls `reset`; no capacity validation is performed.  The
speed settings are the source constants. -/
def init (grid_width grid_height cell_size : Nat) (draws : List Cell) :
    Option SnakeGame :=
  reset
    { grid_width := grid_width
      grid_height := grid_height
      cell_size := cell_size
      snake := []
      direction := Dir.RIGHT
      next_direction := Dir.RIGHT
      score := 0
      game_over := false
      paused := false
      food := (0, 0)
      base_speed := 10
      boost_speed := 5
      speed_counter := 0 }
    draws

/-- The unit vector of `direction_map` in `SnakeGame._move_snake`. -/
def dirVec : Dir → Cell
  | Dir.UP => (0, -1)
  | Dir.DOWN => (0, 1)
  | Dir.LEFT => (-1, 0)
  | Dir.RIGHT => (1, 0)

/-- The new head cell a movement step would compute: the current head
plus the unit vector of the direction about to be committed
(`next_direction`, committed at the top of `_move_snake`). -/
def nextHead (s : SnakeGame) : Cell :=
  let head := s.snake.headD (0, 0)
  let v := dirVec s.next_direction
  (head.1 + v.1, head.2 + v.2)

/-- The wall-collision test of `_move_snake`. -/
def outOfBounds (s : SnakeGame) (c : Cell) : Prop :=
  c.1 < 0 ∨ (s.grid_width : Int) ≤ c.1 ∨ c.2 < 0 ∨ (s.grid_height : Int) ≤ c.2

instance (s : SnakeGame) (c : Cell) : Decidable (s.outOfBounds c) := by
  unfold outOfBounds; infer_instance

/-- `SnakeGame._move_snake`: commit the buffered direction, compute the
new head, check wall and self collision (against the whole body, tail
included), then grow on food or advance by dropping the tail.  `none`
models a food respawn whose sampling loop cannot terminate.  The
direction commit appears in every branch's record because the collision
and food checks read only fields the commit leaves untouched. -/
def move_snake (s : SnakeGame) (draws : List Cell) : Option SnakeGame :=
  if s.outOfBounds (nextHead s) then
    some { s with direction := s.next_direction, game_over := true }
  else if s.snake.contains (nextHead s) then
    some { s with direction := s.next_direction, game_over := true }
  else if nextHead s = s.food then
    (spawn_food draws (nextHead s :: s.snake)).map (fun f =>
      { s with
        direction := s.next_direction
        snake := nextHead s :: s.snake
        score := s.score + 10
        food := f })
  else
    some { s with
      direction := s.next_direction
      snake := (nextHead s :: s.snake).dropLast }

/-- The direction-command filter at the top of `SnakeGame.update`: a
non-null command that is not the opposite of the currently committed
direction overwrites the buffered next direction. -/
def bufferDirection (s : SnakeGame) (direction_command : Option Dir) :
    SnakeGame :=
  match direction_command with
  | none => s
  | some d =>
    if d ≠ opposite s.direction then { s with next_direction := d } else s

/-- `current_speed` in `SnakeGame.update`: 5 frames per move under
boost, 10 otherwise (with the source's default settings). -/
def currentSpeed (s : SnakeGame) (boost_active : Bool) : Nat :=
  if boost_active then s.boost_speed else s.base_speed

/-- `SnakeGame.update`: no-op when over or paused; buffer a non-opposite
direction command; advance the step counter and perform one movement
step when it reaches the speed threshold (the speed fields and counter
are not touched by the direction filter, so the threshold test reads
them off `s` directly). -/
def update (s : SnakeGame) (direction_command : Option Dir)
    (boost_active : Bool) (draws : List Cell) : Option SnakeGame :=
  if s.game_over ∨ s.paused then some s
  else if s.currentSpeed boost_active ≤ s.speed_counter + 1 then
    move_snake
      { bufferDirection s direction_command with speed_counter := 0 } draws
  else
    some { bufferDirection s direction_command with
      speed_counter := s.speed_counter + 1 }

/-- `SnakeGame.toggle_pause`. -/
def toggle_pause (s : SnakeGame) : SnakeGame :=
  if s.game_over then s else { s with paused := !s.paused }

/-- A whole run of `update` calls, each with its command, boost flag and
random draws. -/
def runUpdates (s : SnakeGame) :
    List (Option Dir × Bool × List Cell) → Option SnakeGame
  | [] => some s
  | (cmd, boost, draws) :: rest =>
    match s.update cmd boost draws with
    | none => none
    | some s1 => s1.runUpdates rest

end SnakeGame

/-- A hand keypoint snapshot: the wrist and the five fingertip landmarks
of `finger_tips`, each possibly absent (low-confidence detection).  An
entirely absent snapshot is the one with every landmark `none`; both
hand-shape predicates are false on it, as in the source's `None` guard. -/
structure Keypoints where
  wrist : Option (ℝ × ℝ)
  thumb : Option (ℝ × ℝ)
  index : Option (ℝ × ℝ)
  middle : Option (ℝ × ℝ)
  ring : Option (ℝ × ℝ)
  pinky : Option (ℝ × ℝ)

/-- `valid_fingers` / `finger_positions`: the present fingertips, in the
fixed enumeration order thumb, index, middle, ring, pinky. -/
def fingerPositions (k : Keypoints) : List (ℝ × ℝ) :=
  [k.thumb, k.index, k.middle, k.ring, k.pinky].filterMap id

/-- `GestureRecognition.is_open_palm`: wrist and at least three
fingertips present, mean wrist-to-fingertip Euclidean distance above 40,
and first-to-last fingertip spread above 50.  Exact real arithmetic
stands in for the source's floating point. -/
def is_open_palm (k : Keypoints) : Prop :=
  match k.wrist with
  | none => False
  | some w =>
    let fs := fingerPositions k
    3 ≤ fs.length ∧
    40 < (fs.map (fun p =>
      Real.sqrt ((p.1 - w.1) ^ 2 + (p.2 - w.2) ^ 2))).sum / fs.length ∧
    50 < Real.sqrt
      (((fs.headD (0, 0)).1 - (fs.getLastD (0, 0)).1) ^ 2 +
       ((fs.headD (0, 0)).2 - (fs.getLastD (0, 0)).2) ^ 2)

/-- `GestureRecognition.is_closed_fist`: wrist and at least three
fingertips present, mean wrist-to-fingertip Euclidean distance below 30.
The mean is computed over exactly the same fingertip list and distances
as in `is_open_palm`. -/
def is_closed_fist (k : Keypoints) : Prop :=
  match k.wrist with
  | none => False
  | some w =>
    let fs := fingerPositions k
    3 ≤ fs.length ∧
    (fs.map (fun p =>
      Real.sqrt ((p.1 - w.1) ^ 2 + (p.2 - w.2) ^ 2))).sum / fs.length < 30

/-- Modelled from the spec: the reference classifier described in §4.1 —
fewer than 3 samples gives `None`; displacement is newest minus oldest;
the horizontal axis wins only on strict inequality of magnitudes; a
winning magnitude below the threshold gives `None`; otherwise the sign
of the winning axis selects the direction (positive x RIGHT, negative x
LEFT, positive y DOWN, negative y UP). -/
def classify_direction_spec (threshold : Int) (history : List Pos) :
    Option Dir :=
  if history.length < 3 then none
  else
    let newest := history.getLastD (0, 0)
    let oldest := history.headD (0, 0)
    let dx := newest.1 - oldest.1
    let dy := newest.2 - oldest.2
    if |dy| < |dx| then
      if |dx| < threshold then none
      else if 0 < dx then some Dir.RIGHT
      else if dx < 0 then some Dir.LEFT
      else none
    else
      if |dy| < threshold then none
      else if 0 < dy then some Dir.DOWN
      else if dy < 0 then some Dir.UP
      else none

/-! ## Concrete states used as witnesses and counterexamples -/

/-- A recognizer mid-cooldown: pause cooldown 5, boost cooldown 2. -/
def gestureFive : GestureRecognition :=
  { GestureRecognition.init with pause_cooldown := 5, boost_cooldown := 2 }

/-- A recognizer whose three-sample history has a purely horizontal
displacement of exactly the movement threshold (30). -/
def gestureBoundary : GestureRecognition :=
  { GestureRecognition.init with
      position_history := [(0, 0), (10, 0), (30, 0)] }

/-- A recognizer with a history whose displacement (45, 3) clearly
selects RIGHT. -/
def gestureMove : GestureRecognition :=
  { GestureRecognition.init with
      position_history := [(0, 0), (10, 0), (45, 3)] }

/-- An open-palm keypoint snapshot: three fingertips at distance 50 from
the wrist, spread apart by more than 50. -/
def kpOpen : Keypoints :=
  { wrist := some (0, 0)
    thumb := some (50, 0)
    index := some (30, 40)
    middle := some (0, 50)
    ring := none
    pinky := none }

/-- A bridge whose last committed direction is UP. -/
def bridgeUp : ControlBridge :=
  { ControlBridge.init with last_move_direction := some Dir.UP }

/-- The engine state produced by `SnakeGame.init 20 20 20` when the first
food draw is `(0, 0)`. -/
def engineEx : SnakeGame :=
  { grid_width := 20
    grid_height := 20
    cell_size := 20
    snake := [(10, 10), (9, 10), (8, 10)]
    direction := Dir.RIGHT
    next_direction := Dir.RIGHT
    score := 0
    game_over := false
    paused := false
    food := (0, 0)
    base_speed := 10
    boost_speed := 5
    speed_counter := 0 }

/-- `engineEx` after one non-moving update that buffers UP. -/
def engineTick : SnakeGame :=
  { engineEx with next_direction := Dir.UP, speed_counter := 1 }

/-- `engineEx` with the snake's head one cell away from the right wall. -/
def engineWall : SnakeGame :=
  { engineEx with snake := [(19, 10), (18, 10), (17, 10)] }

/-- `engineEx` with the food directly in the snake's path. -/
def engineFood : SnakeGame :=
  { engineEx with food := (11, 10) }

/-- `engineFood` after the movement step that eats the food (respawn
draw `(0, 0)`). -/
def engineFoodStep : SnakeGame :=
  { engineEx with
    snake := [(11, 10), (10, 10), (9, 10), (8, 10)]
    score := 10
    food := (0, 0) }

/-- `engineEx` after one ordinary movement step. -/
def engineStep : SnakeGame :=
  { engineEx with snake := [(11, 10), (10, 10), (9, 10)] }

/-- The engine direction invariant: the buffered next direction is never
the opposite of the committed direction. -/
abbrev DirInv (s : SnakeGame) : Prop := s.next_direction ≠ opposite s.direction

/-! ## Theorems -/

lemma ne_opposite_self (d : Dir) : d ≠ opposite d := by cases d <;> decide

/-- C7 counterexample: with strictly positive cooldowns (pause 5, boost
2), an `update` with an absent position leaves both cooldowns at their
old values instead of decrementing them to 4 and 1 as the claim states:
the source returns before the cooldown-decrement lines when
`head_position is None`. -/
theorem update_none_keeps_cooldowns :
    gestureFive.pause_cooldown = 5 ∧ gestureFive.boost_cooldown = 2 ∧
    (gestureFive.update none).pause_cooldown ≠ 4 ∧
    (gestureFive.update none).boost_cooldown ≠ 1 ∧
    (gestureFive.update none).pause_cooldown = 5 ∧
    (gestureFive.update none).boost_cooldown = 2 := by
  decide

/-- C7 (amended): an `update` call with an absent position is a complete
no-op — history, cooldowns and every other field are unchanged. -/
theorem update_none_noop (g : GestureRecognition) : g.update none = g := rfl

/-- C5: starting from zero pause cooldown, 40 consecutive ticks of a
closed fist with one `update` and one `get_pause_trigger` per tick read
true at ticks 1 and 31 only. -/
theorem pause_edge_trigger_scenario :
    pauseRun 40 ControlBridge.init =
      [true] ++ List.replicate 29 false ++ [true] ++
        List.replicate 9 false := by
  decide

/-- C6: boost is active after a tick iff the palm was open and
`trigger_boost` succeeded (cooldown zero at the call); and 25 consecutive
open-palm ticks from zero boost cooldown read boost-active true exactly
at ticks 1, 11 and 21. -/
theorem boost_level_trigger :
    (∀ (b : ControlBridge) (p : Bool),
        (b.update_boost p).boost_active =
          (p && (b.gesture_recognizer.boost_cooldown == 0)))
    ∧ boostRun 25 ControlBridge.init =
        [true] ++ List.replicate 9 false ++ [true] ++
          List.replicate 9 false ++ [true] ++ List.replicate 4 false := by
  refine ⟨fun b p => ?_, by decide⟩
  cases p
  · rfl
  · unfold ControlBridge.update_boost GestureRecognition.trigger_boost
    by_cases h : b.gesture_recognizer.boost_cooldown = 0 <;> simp [h]

lemma move_snake_fields (s : SnakeGame) (draws : List Cell) (s2 : SnakeGame)
    (h : s.move_snake draws = some s2) :
    s2.direction = s.next_direction ∧ s2.next_direction = s.next_direction := by
  unfold SnakeGame.move_snake at h
  split_ifs at h
  · injection h with h; subst h; exact ⟨rfl, rfl⟩
  · injection h with h; subst h; exact ⟨rfl, rfl⟩
  · cases hsp : SnakeGame.spawn_food draws (s.nextHead :: s.snake) with
    | none => rw [hsp] at h; simp at h
    | some f =>
      rw [hsp] at h
      simp only [Option.map_some'] at h
      injection h with h; subst h; exact ⟨rfl, rfl⟩
  · injection h with h; subst h; exact ⟨rfl, rfl⟩

lemma bufferDirection_dirinv (s : SnakeGame) (cmd : Option Dir)
    (hinv : DirInv s) :
    DirInv (s.bufferDirection cmd) ∧
      (s.bufferDirection cmd).direction = s.direction := by
  cases cmd with
  | none => exact ⟨hinv, rfl⟩
  | some d =>
    simp only [SnakeGame.bufferDirection]
    by_cases hd : d ≠ opposite s.direction
    · rw [if_pos hd]; exact ⟨hd, rfl⟩
    · rw [if_neg hd]; exact ⟨hinv, rfl⟩

lemma update_dirinv (s : SnakeGame) (cmd : Option Dir) (boost : Bool)
    (draws : List Cell) (s2 : SnakeGame) (hinv : DirInv s)
    (h : s.update cmd boost draws = some s2) :
    DirInv s2 ∧ s2.direction ≠ opposite s.direction := by
  have hbuf := bufferDirection_dirinv s cmd hinv
  have h3 : (s.bufferDirection cmd).next_direction ≠ opposite s.direction := by
    have h5 := hbuf.1
    unfold DirInv at h5
    rw [hbuf.2] at h5
    exact h5
  unfold SnakeGame.update at h
  split at h
  · injection h with h; subst h
    exact ⟨hinv, ne_opposite_self s.direction⟩
  · split at h
    · have hm := move_snake_fields _ _ _ h
      constructor
      · unfold DirInv
        rw [hm.1, hm.2]
        exact ne_opposite_self _
      · rw [hm.1]
        exact h3
    · injection h with h; subst h
      refine ⟨hbuf.1, ?_⟩
      have h4 : (s.bufferDirection cmd).direction ≠ opposite s.direction := by
        rw [hbuf.2]
        exact ne_opposite_self s.direction
      exact h4

lemma init_dirinv (w h cs : Nat) (draws : List Cell) (s : SnakeGame)
    (hinit : SnakeGame.init w h cs draws = some s) : DirInv s := by
  simp only [SnakeGame.init, SnakeGame.reset] at hinit
  cases hsp : SnakeGame.spawn_food draws (SnakeGame.initialSnake w h) with
  | none => rw [hsp] at hinit; simp at hinit
  | some f =>
    rw [hsp] at hinit
    simp only [Option.map_some'] at hinit
    injection hinit with hinit
    subst hinit
    exact ne_opposite_self Dir.RIGHT

lemma runUpdates_dirinv (inputs : List (Option Dir × Bool × List Cell))
    (s s2 : SnakeGame) (hinv : DirInv s)
    (h : s.runUpdates inputs = some s2) : DirInv s2 := by
  induction inputs generalizing s with
  | nil =>
    unfold SnakeGame.runUpdates at h
    injection h with h; subst h; exact hinv
  | cons p rest ih =>
    obtain ⟨cmd, boost, draws⟩ := p
    unfold SnakeGame.runUpdates at h
    cases hu : s.update cmd boost draws with
    | none => rw [hu] at h; exact absurd h (by simp)
    | some s1 =>
      rw [hu] at h
      exact ih s1 (update_dirinv _ _ _ _ _ hinv hu).1 h

lemma update_direction_last (b : ControlBridge) (d : Option Dir) (L L' : Dir)
    (hL : b.last_move_direction = some L)
    (hL' : (b.update_direction d).last_move_direction = some L') :
    L' ≠ opposite L := by
  cases d with
  | none =>
    have h2 : b.last_move_direction = some L' := hL'
    rw [hL] at h2
    injection h2 with h2
    subst h2
    exact ne_opposite_self L
  | some d =>
    have hL2 := hL'
    simp only [ControlBridge.update_direction, hL] at hL2
    by_cases hd : d ≠ opposite L
    · rw [if_pos hd] at hL2
      have h2 : some d = some L' := hL2
      injection h2 with h2
      subst h2
      exact hd
    · rw [if_neg hd] at hL2
      have h2 : some L = some L' := by rw [← hL]; exact hL2
      injection h2 with h2
      subst h2
      exact ne_opposite_self L

lemma update_boost_last (b : ControlBridge) (p : Bool) :
    (b.update_boost p).last_move_direction = b.last_move_direction := by
  cases p with
  | false => rfl
  | true =>
    simp only [ControlBridge.update_boost, GestureRecognition.trigger_boost]
    by_cases h : b.gesture_recognizer.boost_cooldown = 0 <;> simp [h]

lemma update_pause_last (b : ControlBridge) (p : Bool) :
    (b.update_pause p).last_move_direction = b.last_move_direction := by
  cases p with
  | false => rfl
  | true =>
    simp only [ControlBridge.update_pause, GestureRecognition.trigger_pause]
    by_cases h : b.gesture_recognizer.pause_cooldown = 0 <;> simp [h]

lemma bridge_update_last (b : ControlBridge) (pos : Option Pos)
    (op cf : Bool) (L L' : Dir) (hL : b.last_move_direction = some L)
    (hL' : (b.update pos op cf).last_move_direction = some L') :
    L' ≠ opposite L := by
  cases hgf : (b.gesture_recognizer.update pos).get_direction_full with
  | mk dir g2 =>
    simp only [ControlBridge.update, hgf] at hL'
    rw [update_pause_last, update_boost_last] at hL'
    exact update_direction_last { b with gesture_recognizer := g2 } dir L L'
      hL hL'

/-- C1: the committed direction never flips to its exact opposite, in
both layers independently: `_update_direction` only replaces the bridge's
last committed direction by a non-opposite one (whether called directly
or through a whole `ControlBridge.update` tick), a freshly constructed
engine satisfies the direction invariant, every `SnakeGame.update` call
preserves it while committing a non-opposite direction, and the
invariant holds along every sequence of update calls after reset. -/
theorem no_opposite_reversal :
    (∀ (b : ControlBridge) (d : Option Dir) (L L' : Dir),
        b.last_move_direction = some L →
        (b.update_direction d).last_move_direction = some L' →
        L' ≠ opposite L)
    ∧ (∀ (b : ControlBridge) (pos : Option Pos) (op cf : Bool) (L L' : Dir),
        b.last_move_direction = some L →
        (b.update pos op cf).last_move_direction = some L' →
        L' ≠ opposite L)
    ∧ (∀ (w h cs : Nat) (draws : List Cell) (s : SnakeGame),
        SnakeGame.init w h cs draws = some s → DirInv s)
    ∧ (∀ (s : SnakeGame) (cmd : Option Dir) (boost : Bool)
        (draws : List Cell) (s2 : SnakeGame), DirInv s →
        s.update cmd boost draws = some s2 →
        DirInv s2 ∧ s2.direction ≠ opposite s.direction)
    ∧ (∀ (inputs : List (Option Dir × Bool × List Cell)) (s s2 : SnakeGame),
        DirInv s → s.runUpdates inputs = some s2 → DirInv s2) :=
  ⟨update_direction_last, bridge_update_last, init_dirinv,
   update_dirinv, runUpdates_dirinv⟩

/-- Witness for C1 at concrete states. -/
theorem no_opposite_reversal_witness :
    (Dir.LEFT ≠ opposite Dir.UP) ∧ (Dir.UP ≠ opposite Dir.UP) ∧
    DirInv engineEx ∧
    (DirInv engineTick ∧ engineTick.direction ≠ opposite engineEx.direction) ∧
    DirInv engineTick :=
  ⟨no_opposite_reversal.1 bridgeUp (some Dir.LEFT) Dir.UP Dir.LEFT
      (by decide) (by decide),
   no_opposite_reversal.2.1 bridgeUp none false false Dir.UP Dir.UP
      (by decide) (by decide),
   no_opposite_reversal.2.2.1 20 20 20 [(0, 0)] engineEx (by decide),
   no_opposite_reversal.2.2.2.1 engineEx (some Dir.UP) false [] engineTick
      (by decide) (by decide),
   no_opposite_reversal.2.2.2.2 [(some Dir.UP, false, [])] engineEx engineTick
      (by decide) (by decide)⟩

/-- C2: when the movement step's new head is out of bounds or hits any
current snake cell (the still-present tail included), the step only sets
the game-over flag: snake, food, score and the paused flag are exactly
the pre-move values. -/
theorem collision_halts (s : SnakeGame) (draws : List Cell)
    (_hg : s.game_over = false) (_hp : s.paused = false)
    (hcol : s.outOfBounds s.nextHead ∨ s.snake.contains s.nextHead = true) :
    ∃ s2, s.move_snake draws = some s2 ∧ s2.game_over = true ∧
      s2.snake = s.snake ∧ s2.food = s.food ∧ s2.score = s.score ∧
      s2.paused = s.paused := by
  unfold SnakeGame.move_snake
  by_cases h1 : s.outOfBounds s.nextHead
  · rw [if_pos h1]
    exact ⟨_, rfl, rfl, rfl, rfl, rfl, rfl⟩
  · rcases hcol with h | h
    · exact absurd h h1
    · rw [if_neg h1, if_pos h]
      exact ⟨_, rfl, rfl, rfl, rfl, rfl, rfl⟩

/-- Witness for C2: a snake whose head sits beside the right wall moving
RIGHT. -/
theorem collision_halts_witness :
    engineWall.game_over = false ∧ engineWall.paused = false ∧
    (engineWall.outOfBounds engineWall.nextHead ∨
      engineWall.snake.contains engineWall.nextHead = true) ∧
    ∃ s2, engineWall.move_snake [] = some s2 ∧ s2.game_over = true ∧
      s2.snake = engineWall.snake ∧ s2.food = engineWall.food ∧
      s2.score = engineWall.score ∧ s2.paused = engineWall.paused :=
  ⟨by decide, by decide, by decide,
   collision_halts engineWall [] (by decide) (by decide) (by decide)⟩

/-- C3: a movement step onto the food cell prepends the head without
removing the tail (length + 1) and adds exactly 10 to the score; a
movement step not onto the food cell prepends the head and removes the
tail, preserving the length and the score. -/
theorem growth_and_score :
    (∀ (s : SnakeGame) (draws : List Cell) (s2 : SnakeGame),
        ¬ s.outOfBounds s.nextHead → s.snake.contains s.nextHead = false →
        s.nextHead = s.food →
        s.move_snake draws = some s2 →
        s2.snake = s.nextHead :: s.snake ∧
        s2.snake.length = s.snake.length + 1 ∧ s2.score = s.score + 10)
    ∧ (∀ (s : SnakeGame) (draws : List Cell) (s2 : SnakeGame),
        ¬ s.outOfBounds s.nextHead → s.snake.contains s.nextHead = false →
        s.nextHead ≠ s.food →
        s.move_snake draws = some s2 →
        s2.snake = (s.nextHead :: s.snake).dropLast ∧
        s2.snake.length = s.snake.length ∧ s2.score = s.score) := by
  constructor
  · intro s draws s2 h1 h2 h3 h
    have h2' : ¬ s.snake.contains s.nextHead = true := by rw [h2]; decide
    unfold SnakeGame.move_snake at h
    rw [if_neg h1, if_neg h2', if_pos h3] at h
    cases hsp : SnakeGame.spawn_food draws (s.nextHead :: s.snake) with
    | none => rw [hsp] at h; simp at h
    | some f =>
      rw [hsp] at h
      simp only [Option.map_some'] at h
      injection h with h
      subst h
      exact ⟨rfl, by simp, rfl⟩
  · intro s draws s2 h1 h2 h3 h
    have h2' : ¬ s.snake.contains s.nextHead = true := by rw [h2]; decide
    unfold SnakeGame.move_snake at h
    rw [if_neg h1, if_neg h2', if_neg h3] at h
    injection h with h
    subst h
    refine ⟨rfl, ?_, rfl⟩
    simp [List.length_dropLast]

/-- Witness for C3: one step that reaches the food cell and one that
does not. -/
theorem growth_and_score_witness :
    (engineFoodStep.snake = engineFood.nextHead :: engineFood.snake ∧
     engineFoodStep.snake.length = engineFood.snake.length + 1 ∧
     engineFoodStep.score = engineFood.score + 10)
    ∧ (engineStep.snake = (engineEx.nextHead :: engineEx.snake).dropLast ∧
       engineStep.snake.length = engineEx.snake.length ∧
       engineStep.score = engineEx.score) :=
  ⟨growth_and_score.1 engineFood [(0, 0)] engineFoodStep (by decide)
      (by decide) (by decide) (by decide),
   growth_and_score.2 engineEx [] engineStep (by decide) (by decide)
      (by decide) (by decide)⟩

/-- C9: the constructor performs no capacity validation — on a 1×1 grid
(capacity 1 below the snake length 3) every in-grid candidate draw is
rejected by the food rejection-sampling loop, so construction never
completes (the source loops forever in `_spawn_food` instead of failing
fast as the spec requires). -/
theorem tiny_grid_never_constructs (draws : List Cell)
    (hdraws : ∀ c ∈ draws, 0 ≤ c.1 ∧ c.1 < 1 ∧ 0 ≤ c.2 ∧ c.2 < 1) :
    SnakeGame.init 1 1 20 draws = none := by
  simp only [SnakeGame.init, SnakeGame.reset]
  have hsp : SnakeGame.spawn_food draws (SnakeGame.initialSnake 1 1) = none := by
    unfold SnakeGame.spawn_food
    rw [List.find?_eq_none]
    intro c hc
    obtain ⟨ha, hb, hc2, hd⟩ := hdraws c hc
    have hx : c.1 = 0 := by omega
    have hy : c.2 = 0 := by omega
    have hcc : c = ((0 : Int), (0 : Int)) := Prod.ext hx hy
    subst hcc
    decide
  rw [hsp]
  rfl

/-- Witness for C9: the single in-grid draw of the 1×1 grid. -/
theorem tiny_grid_never_constructs_witness :
    SnakeGame.init 1 1 20 [(0, 0)] = none :=
  tiny_grid_never_constructs [(0, 0)] (by decide)

/-- C4: for every recognizer state with a positive movement threshold
(the default is 30), the value `get_direction` returns equals the
spec's reference classifier `classify_direction_spec`. -/
theorem get_direction_matches_spec (g : GestureRecognition)
    (hth : 0 < g.movement_threshold) :
    g.get_direction =
      classify_direction_spec g.movement_threshold g.position_history := by
  unfold GestureRecognition.get_direction classify_direction_spec
  by_cases h3 : g.position_history.length < 3
  · simp [h3]
  · simp only [h3, if_false]
    generalize hdx : (g.position_history.getLastD (0, 0)).1 -
      (g.position_history.headD (0, 0)).1 = dx
    generalize hdy : (g.position_history.getLastD (0, 0)).2 -
      (g.position_history.headD (0, 0)).2 = dy
    rcases abs_cases dx with ⟨a1, a2⟩ | ⟨a1, a2⟩ <;>
      rcases abs_cases dy with ⟨b1, b2⟩ | ⟨b1, b2⟩ <;>
      rw [a1, b1] <;> split_ifs <;> first | rfl | omega

/-- Witness for C4 at a recognizer whose displacement selects RIGHT. -/
theorem get_direction_matches_spec_witness :
    (0 : Int) < gestureMove.movement_threshold ∧
    gestureMove.get_direction =
      classify_direction_spec gestureMove.movement_threshold
        gestureMove.position_history :=
  ⟨by decide, get_direction_matches_spec gestureMove (by decide)⟩

/-- C8 counterexample: a three-sample history with a purely horizontal
displacement of exactly the threshold 30 classifies as RIGHT, not None —
the source rejects only `abs(d) < threshold`, so the exact-threshold
displacement is accepted. -/
theorem threshold_boundary_counterexample :
    gestureBoundary.position_history.length = 3 ∧
    gestureBoundary.movement_threshold = 30 ∧
    gestureBoundary.histDx = 30 ∧
    gestureBoundary.histDy = 0 ∧
    gestureBoundary.get_direction = some Dir.RIGHT := by
  decide

/-- C8 (amended): for every history of at least 3 samples whose
dominant-axis displacement has absolute magnitude exactly equal to the
movement threshold, the classifier returns a direction (not None): the
dead-zone rejection is strict. -/
theorem threshold_displacement_accepted (g : GestureRecognition)
    (h3 : ¬ g.position_history.length < 3)
    (hwin : (if |g.histDy| < |g.histDx| then |g.histDx| else |g.histDy|) =
      g.movement_threshold) :
    ∃ d, g.get_direction = some d := by
  unfold GestureRecognition.histDx GestureRecognition.histDy at hwin
  unfold GestureRecognition.get_direction
  simp only [h3, if_false]
  by_cases hax : |(g.position_history.getLastD (0, 0)).2 -
      (g.position_history.headD (0, 0)).2| <
      |(g.position_history.getLastD (0, 0)).1 -
      (g.position_history.headD (0, 0)).1|
  · rw [if_pos hax] at hwin
    rw [if_pos hax, hwin, if_neg (lt_irrefl g.movement_threshold)]
    by_cases hs : 0 < (g.position_history.getLastD (0, 0)).1 -
        (g.position_history.headD (0, 0)).1
    · rw [if_pos hs]; exact ⟨_, rfl⟩
    · rw [if_neg hs]; exact ⟨_, rfl⟩
  · rw [if_neg hax] at hwin
    rw [if_neg hax, hwin, if_neg (lt_irrefl g.movement_threshold)]
    by_cases hs : 0 < (g.position_history.getLastD (0, 0)).2 -
        (g.position_history.headD (0, 0)).2
    · rw [if_pos hs]; exact ⟨_, rfl⟩
    · rw [if_neg hs]; exact ⟨_, rfl⟩

/-- Witness for C8's amended theorem at the exact-threshold history. -/
theorem threshold_displacement_accepted_witness :
    (¬ gestureBoundary.position_history.length < 3) ∧
    (if |gestureBoundary.histDy| < |gestureBoundary.histDx|
      then |gestureBoundary.histDx| else |gestureBoundary.histDy|) =
      gestureBoundary.movement_threshold ∧
    ∃ d, gestureBoundary.get_direction = some d :=
  ⟨by decide, by decide,
   threshold_displacement_accepted gestureBoundary (by decide) (by decide)⟩

/-- C10: the two hand-shape predicates are mutually exclusive: both
compute the same mean wrist-to-fingertip distance over the same present
fingertips, and an open palm needs it above 40 while a closed fist needs
it below 30. -/
theorem open_palm_excludes_fist (k : Keypoints) (hopen : is_open_palm k) :
    ¬ is_closed_fist k := by
  unfold is_open_palm at hopen
  unfold is_closed_fist
  cases hw : k.wrist with
  | none => rw [hw] at hopen; exact hopen.elim
  | some w =>
    rw [hw] at hopen
    intro hfist
    have h1 := hopen.2.1
    have h2 := hfist.2
    linarith

/-- The concrete snapshot `kpOpen` is an open palm: all three present
fingertips are at distance 50 from the wrist (mean 50 above 40) and the
first and last fingertips are √5000 apart (above 50). -/
theorem kpOpen_is_open : is_open_palm kpOpen := by
  have h2500 : Real.sqrt (2500 : ℝ) = 50 := by
    rw [show (2500 : ℝ) = 50 ^ 2 by norm_num]
    exact Real.sqrt_sq (by norm_num)
  have h5000 : (50 : ℝ) < Real.sqrt 5000 := by
    rw [show (50 : ℝ) = Real.sqrt (50 ^ 2) from (Real.sqrt_sq (by norm_num)).symm]
    exact Real.sqrt_lt_sqrt (by norm_num) (by norm_num)
  have hfp : fingerPositions kpOpen = [((50 : ℝ), 0), (30, 40), (0, 50)] := by
    simp [fingerPositions, kpOpen]
  unfold is_open_palm
  rw [show kpOpen.wrist = some ((0 : ℝ), 0) from rfl]
  dsimp only
  rw [hfp]
  refine ⟨by norm_num, ?_, ?_⟩
  · norm_num [h2500]
  · norm_num [h5000]

/-- Witness for C10 at the concrete open-palm snapshot. -/
theorem open_palm_excludes_fist_witness :
    is_open_palm kpOpen ∧ ¬ is_closed_fist kpOpen :=
  ⟨kpOpen_is_open, open_palm_excludes_fist kpOpen kpOpen_is_open⟩
